import Mathlib

/-!
Verification of the eth-indexer specification against a shallow embedding of
the source under src/.

Embedding conventions:
  - machine integers are Nat (U256, U64, H256, H160 values) or Int (the i32/i64
    values the store receives); narrowing casts carry explicit mod-2^w
    arithmetic matching the Rust casts;
  - code that can panic (unwrap, expect, as_u64 on an overflowing value)
    returns Option, with none standing for the panic;
  - serde_json values are the inductive Json below; the external serde_json
    string parser is passed as an explicit parameter of type
    String -> Option Json where the source calls serde_json::from_str;
  - SQL upserts are modelled as pure functions on row types whose fields are
    the already-converted parameter values the source binds into the query.
-/

namespace EthIndexer

/-- Model of serde_json::Value. -/
inductive Json where
  | null : Json
  | bool (b : Bool) : Json
  | num (n : Int) : Json
  | str (s : String) : Json
  | arr (xs : List Json) : Json
  | obj (fields : List (String × Json)) : Json

/-- Model of serde_json Value::is_null. -/
def Json.isNull : Json → Bool
  | .null => true
  | _ => false

/-- Model of serde_json Value::as_str. -/
def Json.asStr : Json → Option String
  | .str s => some s
  | _ => none

/-- Model of serde_json Value::as_array. -/
def Json.asArr : Json → Option (List Json)
  | .arr xs => some xs
  | _ => none

/-- Model of serde_json Value::as_bool. -/
def Json.asBool : Json → Option Bool
  | .bool b => some b
  | _ => none

/-- Model of serde_json value[key] indexing: field lookup on objects, Null on
anything else or when the key is absent. -/
def Json.index (j : Json) (key : String) : Json :=
  match j with
  | .obj fields =>
    match fields.find? (fun kv => kv.fst == key) with
    | some kv => kv.snd
    | none => .null
  | _ => .null

/-- Hex digit characters, lowercase, as produced by Rust LowerHex formatting. -/
def hexMin (n : Nat) : String := String.mk (Nat.toDigits 16 n)

/-- Zero-padded fixed-width lowercase hex, as produced by formatting an
ethers H160/H256 with format!("\x7b:x\x7d"). -/
def hexPad (w n : Nat) : String :=
  let ds := Nat.toDigits 16 n
  String.mk (List.replicate (w - ds.length) '0' ++ ds)

/-- Hex encoding of a byte list, as produced by hex::encode inside the ethers
Bytes LowerHex implementation (an 0x prefix is added by that implementation). -/
def hexBytes (bs : List Nat) : String :=
  "0x" ++ String.join (bs.map (fun b => hexPad 2 b))

/-- Rust u32 truncation: U256::low_u32. -/
def lowU32 (n : Nat) : Nat := n % 2 ^ 32

/-- Rust U256::as_u64 / U256 as-u64 conversions panic when the value does not
fit in 64 bits; none models the panic. -/
def asU64 (n : Nat) : Option Nat := if n < 2 ^ 64 then some n else none

/-- Rust U256::as_u128 panics when the value does not fit in 128 bits. -/
def asU128 (n : Nat) : Option Nat := if n < 2 ^ 128 then some n else none

/-- Rust U64::as_u32 panics when the value does not fit in 32 bits. -/
def asU32 (n : Nat) : Option Nat := if n < 2 ^ 32 then some n else none

/-- Rust wrapping cast of an unsigned value to i32 (the `as i32` cast). -/
def toI32 (n : Nat) : Int :=
  if n % 2 ^ 32 < 2 ^ 31 then (n % 2 ^ 32 : Int) else (n % 2 ^ 32 : Int) - 2 ^ 32

/-- Rust wrapping cast of an unsigned value to i64 (the `as i64` cast). -/
def toI64 (n : Nat) : Int :=
  if n % 2 ^ 64 < 2 ^ 63 then (n % 2 ^ 64 : Int) else (n % 2 ^ 64 : Int) - 2 ^ 64

/-- ContractType from src/src/indexer_types/mod.rs. -/
inductive ContractType where
  | Unknown : ContractType
  | ERC20 : ContractType
  | ERC721 : ContractType
deriving DecidableEq

/-- ContractType::to_string from src/src/indexer_types/mod.rs. -/
def ContractType.to_string : ContractType → String
  | .Unknown => ""
  | .ERC20 => "ERC20"
  | .ERC721 => "ERC721"

/-- The helper all_names_found nested inside detect_contract_type in
src/src/indexer_types/mod.rs: collect the name of every array element whose
type field is the string "function", then check that every requested name
occurs among them. -/
def all_names_found (parsed_abi : Json) (names_to_check : List String) : Bool :=
  let found_names : List String :=
    match parsed_abi.asArr with
    | some abi_array =>
      abi_array.filterMap (fun abi_object =>
        match (abi_object.index "type").asStr with
        | some obj_type =>
          if obj_type == "function" then (abi_object.index "name").asStr else none
        | none => none)
    | none => []
  names_to_check.all (fun name => found_names.contains name)

/-- ContractType::detect_contract_type from src/src/indexer_types/mod.rs.
The parse parameter stands for serde_json::from_str; none models both expect
panics (a non-string ABI value, and a string whose content fails to parse). -/
def detect_contract_type (parse : String → Option Json) (abi_json : Json) :
    Option ContractType :=
  if abi_json.isNull then some ContractType.Unknown
  else
    match abi_json.asStr with
    | none => none
    | some abi_str =>
      match parse abi_str with
      | none => none
      | some parsed_abi =>
        if all_names_found parsed_abi ["totalSupply", "balanceOf", "transfer"] then
          some ContractType.ERC20
        else if all_names_found parsed_abi ["Transfer"] then
          some ContractType.ERC721
        else
          some ContractType.Unknown

/-- Model of serde_json Value::to_string serialization (string escaping beyond
plain quoting is not needed by the inputs in this development). -/
def Json.render : Json → String
  | .null => "null"
  | .bool true => "true"
  | .bool false => "false"
  | .num n => toString n
  | .str s => "\"" ++ s ++ "\""
  | .arr xs => "[" ++ String.intercalate "," (xs.attach.map (fun x => Json.render x.1)) ++ "]"
  | .obj fs =>
    "\x7b" ++
      String.intercalate ","
        (fs.attach.map
          (fun kv => "\"" ++ kv.1.1 ++ "\":" ++ Json.render kv.1.2)) ++
      "\x7d"
termination_by j => sizeOf j
decreasing_by
  · have h := List.sizeOf_lt_of_mem x.2
    simp only [Json.arr.sizeOf_spec]
    omega
  · have h := List.sizeOf_lt_of_mem kv.2
    have h2 : sizeOf kv.1 = 1 + sizeOf kv.1.1 + sizeOf kv.1.2 := by
      cases kv.1
      simp
    simp only [Json.obj.sizeOf_spec]
    omega

/-- ContractInfo from src/src/indexer_types/mod.rs. -/
structure ContractInfo where
  contractType : String
  abi : String
  abi_json : Json
  additionalSources : String
  compilerSettings : String
  compilerVersion : String
  constructorArguments : String
  contractName : String
  EVMVersion : String
  fileName : String
  isProxy : Bool
  optimizationUsed : Bool
  sourceCode : String

/-- ContractInfo::new from src/src/indexer_types/mod.rs: every string field
empty, both booleans false, and abi_json the parse of the literal "[]",
that is, the empty JSON array. -/
def ContractInfo.new : ContractInfo where
  contractType := ""
  abi := ""
  abi_json := Json.arr []
  additionalSources := ""
  compilerSettings := ""
  compilerVersion := ""
  constructorArguments := ""
  contractName := ""
  EVMVersion := ""
  fileName := ""
  isProxy := false
  optimizationUsed := false
  sourceCode := ""

/-- ContractInfo::is_null from src/src/indexer_types/mod.rs: all string fields
empty, both booleans false, and abi_json a JSON null. -/
def ContractInfo.is_null (c : ContractInfo) : Bool :=
  c.contractType.isEmpty
    && c.abi.isEmpty
    && c.abi_json.isNull
    && c.additionalSources.isEmpty
    && c.compilerSettings.isEmpty
    && c.compilerVersion.isEmpty
    && c.constructorArguments.isEmpty
    && c.contractName.isEmpty
    && c.EVMVersion.isEmpty
    && c.fileName.isEmpty
    && !c.isProxy
    && !c.optimizationUsed
    && c.sourceCode.isEmpty

/-- Model of an HTTP response from the explorer: the status code and the
result of parsing the body as JSON by the HTTP library (none when the body
fails to parse; the source substitutes an empty JSON array in that case). -/
structure HttpResponse where
  status : Nat
  body : Option Json

/-- Model of reqwest StatusCode::is_client_error. -/
def isClientError (s : Nat) : Bool := 400 ≤ s && s ≤ 499

/-- Model of reqwest StatusCode::is_server_error. -/
def isServerError (s : Nat) : Bool := 500 ≤ s && s ≤ 599

/-- get_verified_sc_data from src/src/blockscout/mod.rs, as a function of the
received response. The parse parameter stands for serde_json::from_str as
consumed by detect_contract_type downstream; none models a panic inside
detect_contract_type. -/
def get_verified_sc_data (parse : String → Option Json) (response : HttpResponse) :
    Option ContractInfo :=
  if isClientError response.status then
    -- 404 and every other 4xx return the empty ContractInfo
    some ContractInfo.new
  else if isServerError response.status then
    some ContractInfo.new
  else
    let json := match response.body with
      | some j => j
      | none => Json.arr []
    if json.isNull then some ContractInfo.new
    else
      match detect_contract_type parse (json.index "abi") with
      | none => none
      | some ct =>
        some
          { contractType := ct.to_string
            abi_json := json.index "abi"
            abi := (json.index "abi").render
            additionalSources := (json.index "additional_sources").render
            compilerSettings := (json.index "compiler_settings").render
            compilerVersion := (json.index "compiler_version").render
            constructorArguments := (json.index "constructor_args").render
            contractName := (json.index "name").render
            EVMVersion := (json.index "evm_version").render
            fileName := (json.index "file_path").render
            isProxy := false
            optimizationUsed := (json.index "optimization_enabled").render == "true"
            sourceCode := (json.index "source_code").render }

/-- Rust wrapping cast of an unsigned value to i16 (the `as i16` cast). -/
def toI16 (n : Nat) : Int :=
  if n % 2 ^ 16 < 2 ^ 15 then (n % 2 ^ 16 : Int) else (n % 2 ^ 16 : Int) - 2 ^ 16

/-- A stored row of the addresses table, holding the converted values bound
into the SQL statement of insert_address. -/
structure AddressRow where
  balance : Nat
  nonce : Int
  transactionCount : Int
  blockNumber : Int
  contractCode : String
  storage : String
deriving DecidableEq

/-- The addresses table, keyed by the formatted address string. -/
abbrev AddressStore := List (String × AddressRow)

/-- The ON CONFLICT clause of insert_address (src/src/db/addresses.rs and
src/src/db/mod.rs): insert the row when the key is absent; when present,
overwrite every field with the excluded values exactly when the incoming
blockNumber is strictly greater than the stored one, else keep the row. -/
def upsert_address (st : AddressStore) (addr : String) (row : AddressRow) :
    AddressStore :=
  match st.find? (fun kv => kv.fst == addr) with
  | none => st ++ [(addr, row)]
  | some _ =>
    st.map (fun kv =>
      if kv.fst == addr then
        (addr, if row.blockNumber > kv.snd.blockNumber then row else kv.snd)
      else kv)

/-- insert_address from src/src/db/addresses.rs (identical in
src/src/db/mod.rs). The balance is converted with
Decimal::from_parts(balance.low_u32(), 0, 0, false, 0), that is, only the low
32 bits of the supplied U256 are kept; nonce and transaction_count go through
as_u64 (panic on overflow, modelled by none) and an `as i32` wrap. -/
def insert_address (address balance nonce transaction_count storage : Nat)
    (code : List Nat) (block_number : Nat) (st : AddressStore) :
    Option AddressStore := do
  let n64 ← asU64 nonce
  let t64 ← asU64 transaction_count
  some (upsert_address st ("0x" ++ hexPad 40 address)
    { balance := lowU32 balance
      nonce := toI32 n64
      transactionCount := toI32 t64
      blockNumber := toI64 block_number
      contractCode := hexBytes code
      storage := "0x" ++ hexPad 64 storage })

/-- The in-memory transaction produced by the RPC gateway, restricted to the
fields insert_transaction consumes (ethers Transaction). -/
structure Transaction where
  r : Nat
  s : Nat
  v : Nat
  to_ : Option Nat
  gas : Nat
  from_ : Nat
  hash : Nat
  transaction_type : Option Nat
  input : List Nat
  nonce : Nat
  value : Nat
  chain_id : Option Nat
  gas_price : Option Nat
  block_hash : Option Nat
  access_list : Json
  block_number : Option Nat
  max_fee_per_gas : Option Nat
  transaction_index : Option Nat
  max_priority_fee_per_gas : Option Nat

/-- A stored row of the transactions table, holding the converted values bound
into the SQL statement of insert_transaction. Every column receives a value;
the `to` column in particular is always bound to a string, never to NULL. -/
structure TransactionRow where
  r : String
  s : String
  v : String
  to_ : String
  gas : Int
  from_ : String
  hash : String
  type : Int
  input : String
  nonce : Int
  value : Int
  chainId : String
  gasPrice : Int
  blockHash : String
  accessList : Json
  blockNumber : Int
  maxFeePerGas : Int
  transactionIndex : Int
  maxPriorityFeePerGas : Int

/-- insert_transaction from src/src/db/mod.rs (identical in
src/src/db/transactions.rs): the bound parameter values, with none modelling
the unwrap and as-cast panics. A missing `to` is replaced by
Address::default(), the zero address, before formatting. -/
def insert_transaction (t : Transaction) : Option TransactionRow := do
  let g64 ← asU64 t.gas
  let tt ← t.transaction_type
  let n64 ← asU64 t.nonce
  let v128 ← asU128 t.value
  let ci ← t.chain_id
  let ci64 ← asU64 ci
  let gp ← t.gas_price
  let gp128 ← asU128 gp
  let bh ← t.block_hash
  let bn ← t.block_number
  let mf128 ← asU128 (t.max_fee_per_gas.getD 0)
  let mp128 ← asU128 (t.max_priority_fee_per_gas.getD 0)
  some
    { r := "0x" ++ hexMin t.r
      s := "0x" ++ hexMin t.s
      v := "0x" ++ hexMin t.v
      to_ := "0x" ++ hexPad 40 (t.to_.getD 0)
      gas := toI32 g64
      from_ := "0x" ++ hexPad 40 t.from_
      hash := "0x" ++ hexPad 64 t.hash
      type := toI16 tt
      input := hexBytes t.input
      nonce := toI32 n64
      value := toI64 v128
      chainId := toString ci64
      gasPrice := toI64 gp128
      blockHash := "0x" ++ hexPad 64 bh
      accessList := t.access_list
      blockNumber := toI64 bn
      maxFeePerGas := toI64 mf128
      transactionIndex := toI32 (t.transaction_index.getD 0)
      maxPriorityFeePerGas := toI64 mp128 }

/-- The in-memory receipt produced by the RPC gateway, restricted to the
fields the store consumes (ethers TransactionReceipt). -/
structure TransactionReceipt where
  transaction_hash : Nat
  transaction_index : Nat
  block_hash : Option Nat
  from_ : Nat
  to_ : Option Nat
  block_number : Option Nat
  cumulative_gas_used : Nat
  gas_used : Option Nat
  contract_address : Option Nat
  logs : Json
  logs_bloom : Nat
  status : Option Nat
  effective_gas_price : Option Nat
  transaction_type : Option Nat

/-- A stored row of the transactions_receipts table, holding the converted
values bound into the SQL statement of insert_transaction_receipt. The
contractAddress column is always bound to a string, never to NULL. -/
structure TransactionReceiptRow where
  transactionHash : String
  transactionIndex : Int
  blockHash : String
  from_ : String
  to_ : String
  blockNumber : Int
  cumulativeGasUsed : Int
  gasUsed : Int
  contractAddress : String
  logs : Json
  logsBloom : String
  status : Bool
  effectiveGasPrice : Int
  type : String

/-- insert_transaction_receipt from src/src/db/mod.rs (identical in
src/src/db/transactions.rs). A missing `to` or contract_address is replaced
by the zero address before formatting; gas_used keeps only the low 64 bits of
the u128 value through the `as i64` cast. -/
def insert_transaction_receipt (t : TransactionReceipt) :
    Option TransactionReceiptRow := do
  let bh ← t.block_hash
  let bn ← t.block_number
  let cgu ← asU128 t.cumulative_gas_used
  let gu ← asU128 (t.gas_used.getD 0)
  let st32 ← asU32 (t.status.getD 0)
  let egp ← asU128 (t.effective_gas_price.getD 0)
  let tt ← t.transaction_type
  some
    { transactionHash := "0x" ++ hexPad 64 t.transaction_hash
      transactionIndex := toI32 t.transaction_index
      blockHash := "0x" ++ hexPad 64 bh
      from_ := "0x" ++ hexPad 40 t.from_
      to_ := "0x" ++ hexPad 40 (t.to_.getD 0)
      blockNumber := toI64 bn
      cumulativeGasUsed := (cgu : Int)
      gasUsed := toI64 gu
      contractAddress := "0x" ++ hexPad 40 (t.contract_address.getD 0)
      logs := t.logs
      logsBloom := "0x" ++ hexPad 512 t.logs_bloom
      status := st32 == 1
      effectiveGasPrice := (egp : Int)
      type := toString tt }

/-- A stored row of the contracts table, holding the converted values bound
into the SQL statement of insert_smart_contract. -/
structure ContractRow where
  address : String
  bytecode : String
  blockNumber : Int
  transactionHash : String
  creatorAddress : String
  contractType : String
  abi : Json
  sourceCode : String
  additionalSources : String
  compilerSettings : String
  constructorArguments : String
  EVMVersion : String
  fileName : String
  isProxy : Bool
  contractName : String
  compilerVersion : String
  optimizationUsed : Bool

/-- insert_smart_contract from src/src/db/contracts.rs: the row bound into the
contracts upsert. The abi column value is serde_json::from_str of the literal
"[]" when is_null() holds of the verified data, else from_str of its abi
string, each followed by unwrap; parse stands for from_str and none models
the unwrap panic. -/
def insert_smart_contract (parse : String → Option Json)
    (transaction_receipt : TransactionReceipt) (code : List Nat)
    (verified_sc_data : ContractInfo) : Option ContractRow := do
  let ca ← transaction_receipt.contract_address
  let bn ← transaction_receipt.block_number
  let abi ← if verified_sc_data.is_null then parse "[]" else parse verified_sc_data.abi
  some
    { address := "0x" ++ hexPad 40 ca
      bytecode := hexBytes code
      blockNumber := toI64 bn
      transactionHash := "0x" ++ hexPad 64 transaction_receipt.transaction_hash
      creatorAddress := "0x" ++ hexPad 40 transaction_receipt.from_
      contractType := if verified_sc_data.is_null then "" else verified_sc_data.contractType
      abi := abi
      sourceCode := if verified_sc_data.is_null then "" else verified_sc_data.sourceCode
      additionalSources :=
        if verified_sc_data.is_null then "" else verified_sc_data.additionalSources
      compilerSettings :=
        if verified_sc_data.is_null then "" else verified_sc_data.compilerSettings
      constructorArguments :=
        if verified_sc_data.is_null then "" else verified_sc_data.constructorArguments
      EVMVersion := if verified_sc_data.is_null then "" else verified_sc_data.EVMVersion
      fileName := if verified_sc_data.is_null then "" else verified_sc_data.fileName
      isProxy := if verified_sc_data.is_null then false else verified_sc_data.isProxy
      contractName := if verified_sc_data.is_null then "" else verified_sc_data.contractName
      compilerVersion :=
        if verified_sc_data.is_null then "" else verified_sc_data.compilerVersion
      optimizationUsed :=
        if verified_sc_data.is_null then false else verified_sc_data.optimizationUsed }

/-- The in-memory log entry produced by the RPC gateway, restricted to the
fields the log and token-transfer path consumes (ethers Log). Topics are
32-byte words; data is the raw byte list. -/
structure LogEntry where
  address : Nat
  topics : List Nat
  data : List Nat
  log_index : Option Nat
  transaction_hash : Option Nat
  block_hash : Option Nat
  block_number : Option Nat

/-- The decoded ERC-20 Transfer event (the Transfer struct consumed by
src/src/db/logs.rs; its declaration is not under src/). -/
structure Transfer where
  from_ : Nat
  to_ : Nat
  value : Nat

/-- Big-endian byte-list value, as an ABI uint256 word is read. -/
def beBytesToNat (bs : List Nat) : Nat := bs.foldl (fun a b => a * 256 + b) 0

/-- Modelled from the spec: keccak256 of the canonical signature
Transfer(address,address,uint256) (the keccak implementation is the external
ethers library); this well-known constant is the topic[0] of ERC-20 Transfer
logs. -/
def transferSignatureHash : Nat :=
  0xddf252ad1be2c89b69c2b068fc378daa952ba7f163c4a11628f55a4df523b3ef

/-- Modelled from the spec: ethers decode_event for
Transfer(address,address,uint256) (the decoder and the Transfer struct are
not under src/). from is the low 20 bytes of topics[1], to is the low 20
bytes of topics[2], and value is the uint256 read from the 32-byte data
word; anything else is a decoding error. -/
def decode_transfer_event (topics : List Nat) (data : List Nat) : Option Transfer :=
  match topics with
  | _t0 :: t1 :: t2 :: _ =>
    if data.length == 32 then
      some { from_ := t1 % 2 ^ 160, to_ := t2 % 2 ^ 160, value := beBytesToNat data }
    else none
  | _ => none

/-- A stored row of the token_transfers table, holding the converted values
bound into the SQL statement of insert_erc20_transfer. -/
structure TokenTransferRow where
  contractAddress : String
  fromAddress : String
  toAddress : String
  transactionHash : String
  blockNumber : Int
  blockHash : String
  logIndex : Int
  amount : Int

/-- insert_erc20_transfer from src/src/db/tokens.rs. The amount is converted
with Decimal::from(decoded_log.value.as_u128() as i64): as_u128 panics above
2^128 (none) and the `as i64` cast keeps only the low 64 bits, reinterpreted
as a signed value. -/
def insert_erc20_transfer (log : LogEntry) (decoded_log : Transfer) :
    Option TokenTransferRow := do
  let th ← log.transaction_hash
  let bh ← log.block_hash
  let bn ← log.block_number
  let li ← log.log_index
  let li64 ← asU64 li
  let v128 ← asU128 decoded_log.value
  some
    { contractAddress := "0x" ++ hexPad 40 log.address
      fromAddress := "0x" ++ hexPad 40 decoded_log.from_
      toAddress := "0x" ++ hexPad 40 decoded_log.to_
      transactionHash := "0x" ++ hexPad 64 th
      blockNumber := toI64 bn
      blockHash := "0x" ++ hexPad 64 bh
      logIndex := toI32 li64
      amount := toI64 v128 }

/-- The ERC-20 branch of insert_log from src/src/db/logs.rs, after the log
row insert and the ERC-20 classification: match topics[0] against the
Transfer signature hash; on match decode the event (a decode failure is
returned as an error) and persist the token transfer row. The error value
models both the returned decode error and the conversion panics. -/
def erc20_log_transfer (log : LogEntry) : Except Unit (Option TokenTransferRow) :=
  match log.topics.head? with
  | some topic =>
    if topic == transferSignatureHash then
      match decode_transfer_event log.topics log.data with
      | some decoded_log =>
        match insert_erc20_transfer log decoded_log with
        | some row => .ok (some row)
        | none => .error ()
      | none => .error ()
    else .ok none
  | none => .ok none

/-- The fetched block, restricted to what index_block consumes: its
transaction hash list. -/
structure Blk where
  transactions : List Nat

/-- One run of the block workflow seen through its I/O: the block fetch
outcome, the outcome of inserting the fetched block, and the outcome of the
transaction sub-workflow per transaction hash. -/
structure BlockEnv where
  block_number : Nat
  getBlock : Except String (Option Blk)
  insertBlock : Except String Unit
  txResult : Nat → Except String Unit

/-- index_block from src/src/indexer/mod.rs: on a fetched block, a store
error inserting it is returned; per-transaction errors are logged only; a
missing block (or a fetch error) is logged and the workflow returns success.
The second component is the error log. -/
def index_block (env : BlockEnv) : Except String Unit × List String :=
  match env.getBlock with
  | .ok (some block) =>
    match env.insertBlock with
    | .error e =>
      let msg := "Error inserting block #" ++ toString env.block_number ++
        " into database: " ++ e
      (.error msg, [msg])
    | .ok _ =>
      let logs := block.transactions.filterMap (fun h =>
        match env.txResult h with
        | .error e => some ("Error indexing transaction #0x" ++ hexPad 64 h ++ ": " ++ e)
        | .ok _ => none)
      (.ok (), logs)
  | _ => (.ok (), ["Error retrieving block " ++ toString env.block_number])

/-- Observable outcome of one scheduler run: the block numbers of the spawned
block tasks in spawn order, and the number of progress reports printed. -/
structure SchedState where
  scheduled : List Nat
  progressLines : Nat
deriving DecidableEq

/-- The blocks spawned by one batch loop of index_blocks: block numbers from
batch_start inclusive to batch_end exclusive, skipping any strictly above
end_block. -/
def batchBlocks (batch_start batch_end end_block : Nat) : List Nat :=
  (List.range' batch_start (batch_end - batch_start)).filter
    (fun b => decide (b ≤ end_block))

/-- The main while loop of index_blocks (src/src/indexer/mod.rs): while
batch_end is at most end_block, spawn the batch, await it, advance both
cursors by max_concurrency, and print a progress report when at least five
seconds have elapsed since the previous report. The oracle gives the elapsed
seconds observed at the end of each iteration (wall time is an input of the
model); fuel bounds the iteration count and exceeds it whenever
max_concurrency is positive. Returns the final state and final batch_start. -/
def schedLoop (fuel : Nat) (batch_start batch_end end_block max_concurrency : Nat)
    (oracle : Nat → Nat) (iter : Nat) (acc : SchedState) : SchedState × Nat :=
  match fuel with
  | 0 => (acc, batch_start)
  | fuel + 1 =>
    if batch_end ≤ end_block then
      let acc :=
        { scheduled := acc.scheduled ++ batchBlocks batch_start batch_end end_block
          progressLines := acc.progressLines + (if 5 ≤ oracle iter then 1 else 0) }
      schedLoop fuel (batch_start + max_concurrency) (batch_end + max_concurrency)
        end_block max_concurrency oracle (iter + 1) acc
    else (acc, batch_start)

/-- index_blocks from src/src/indexer/mod.rs, reduced to its scheduling and
progress-reporting observables: the main batch loop followed by the tail pass
that runs when the final batch_start is still strictly below end_block. -/
def index_blocks (start_block end_block max_concurrency : Nat) (oracle : Nat → Nat) :
    SchedState :=
  let p := schedLoop (end_block + 2) start_block (start_block + max_concurrency)
    end_block max_concurrency oracle 0 { scheduled := [], progressLines := 0 }
  let st := p.1
  let batch_start := p.2
  if batch_start < end_block then
    { st with
      scheduled :=
        st.scheduled ++ batchBlocks batch_start (batch_start + max_concurrency) end_block }
  else st

/-! Concrete inputs used by witnesses and counterexamples. -/

/-- A parser stub refusing every string; any real JSON parser also refuses
the empty string, which is the only behavior the theorems below consume. -/
def parseNone : String → Option Json := fun _ => none

/-- An ABI function entry with the given name, as a parsed JSON object. -/
def abiFn (name : String) : Json :=
  Json.obj [("type", Json.str "function"), ("name", Json.str name)]

/-- The parsed ABI of scenario S3: function entries totalSupply, balanceOf,
transfer, approve. -/
def abi20entries : List Json :=
  [abiFn "totalSupply", abiFn "balanceOf", abiFn "transfer", abiFn "approve"]

/-- A parser behaving like serde_json on the single string the S3 witness
feeds it. -/
def parse20 : String → Option Json :=
  fun s => if s == "abi20" then some (Json.arr abi20entries) else none

/-- A parsed ABI with exactly the function entries named by the ERC-721 rule
of the spec: ownerOf, safeTransferFrom, transferFrom. -/
def abi721entries : List Json :=
  [abiFn "ownerOf", abiFn "safeTransferFrom", abiFn "transferFrom"]

/-- A parser behaving like serde_json on the single string the ERC-721
counterexample feeds it. -/
def parse721 : String → Option Json :=
  fun s => if s == "abi721" then some (Json.arr abi721entries) else none

/-- The previous ERC-721 candidate ABI extended with a function entry named
Transfer, which is what the source actually tests for. -/
def abi721tEntries : List Json := abi721entries ++ [abiFn "Transfer"]

/-- A parser behaving like serde_json on the single string the amended
ERC-721 witness feeds it. -/
def parse721t : String → Option Json :=
  fun s => if s == "abi721t" then some (Json.arr abi721tEntries) else none

/-- An ERC-20 Transfer log whose 32-byte data word encodes the value 2^63:
topics are the Transfer signature hash, the from word 0x0A and the to word
0x0B. -/
def c2log : LogEntry where
  address := 0xCC
  topics := [transferSignatureHash, 10, 11]
  data := List.replicate 24 0 ++ 128 :: List.replicate 7 0
  log_index := some 0
  transaction_hash := some 1
  block_hash := some 2
  block_number := some 7

/-- A creation receipt whose contract_address is 0xC...C, the address of
scenario S6. -/
def c4receipt : TransactionReceipt where
  transaction_hash := 1
  transaction_index := 0
  block_hash := some 2
  from_ := 3
  to_ := none
  block_number := some 7
  cumulative_gas_used := 0
  gas_used := none
  contract_address := some 0xCCCCCCCCCCCCCCCCCCCCCCCCCCCCCCCCCCCCCCCC
  logs := Json.arr []
  logs_bloom := 0
  status := some 1
  effective_gas_price := none
  transaction_type := some 2

/-- A transaction with an absent to field and every unwrapped field present. -/
def c10tx : Transaction where
  r := 1
  s := 2
  v := 3
  to_ := none
  gas := 21000
  from_ := 4
  hash := 5
  transaction_type := some 2
  input := []
  nonce := 0
  value := 0
  chain_id := some 1
  gas_price := some 7
  block_hash := some 8
  access_list := Json.arr []
  block_number := some 9
  max_fee_per_gas := none
  transaction_index := some 0
  max_priority_fee_per_gas := none

/-- A receipt with an absent contract_address and every unwrapped field
present. -/
def c10receipt : TransactionReceipt where
  transaction_hash := 5
  transaction_index := 0
  block_hash := some 8
  from_ := 4
  to_ := some 6
  block_number := some 9
  cumulative_gas_used := 21000
  gas_used := some 21000
  contract_address := none
  logs := Json.arr []
  logs_bloom := 0
  status := some 1
  effective_gas_price := some 7
  transaction_type := some 2

/-- A default transactions row, used only to name the computed row in closed
statements. -/
def emptyTxRow : TransactionRow where
  r := ""
  s := ""
  v := ""
  to_ := ""
  gas := 0
  from_ := ""
  hash := ""
  type := 0
  input := ""
  nonce := 0
  value := 0
  chainId := ""
  gasPrice := 0
  blockHash := ""
  accessList := Json.null
  blockNumber := 0
  maxFeePerGas := 0
  transactionIndex := 0
  maxPriorityFeePerGas := 0

/-- A default receipts row, used only to name the computed row in closed
statements. -/
def emptyReceiptRow : TransactionReceiptRow where
  transactionHash := ""
  transactionIndex := 0
  blockHash := ""
  from_ := ""
  to_ := ""
  blockNumber := 0
  cumulativeGasUsed := 0
  gasUsed := 0
  contractAddress := ""
  logs := Json.null
  logsBloom := ""
  status := false
  effectiveGasPrice := 0
  type := ""

/-! Theorems. -/

/-- Every name with a witnessing function entry in the array is found by
all_names_found, regardless of the order of the entries and of any
additional entries. -/
theorem all_names_found_sufficient (entries : List Json) (names : List String)
    (h : ∀ name ∈ names, ∃ e ∈ entries,
      (e.index "type").asStr = some "function" ∧ (e.index "name").asStr = some name) :
    all_names_found (Json.arr entries) names = true := by
  unfold all_names_found
  simp only [Json.asArr]
  rw [List.all_eq_true]
  intro name hname
  obtain ⟨e, he, ht, hn⟩ := h name hname
  have hmem : name ∈ entries.filterMap (fun abi_object =>
      match (abi_object.index "type").asStr with
      | some obj_type =>
        if obj_type == "function" then (abi_object.index "name").asStr else none
      | none => none) := by
    rw [List.mem_filterMap]
    refine ⟨e, he, ?_⟩
    rw [ht]
    simp [hn]
  simpa using hmem

/-- C1 (code_bug): insert_address keeps only the low 32 bits of the supplied
balance. On a fresh address, a single call with block_number 100 and balance
2^32 = 4294967296 stores balance 0, not the supplied value — refuting the
claim that every stored field equals the value supplied alongside the
maximal block_number. The monotone part of the claim behaves as stated on
the concrete S2 scenario: after (block_number 100, balance 5) then
(block_number 90, balance 99), the stored pair is (balance 5, block 100). -/
theorem insert_address_truncates_balance :
    ((insert_address 1 4294967296 0 0 0 [] 100 []).map
      (fun st => st.map (fun kv => (kv.2.balance, kv.2.blockNumber)))) =
        some [(0, 100)] ∧
    (4294967296 : Nat) ≠ 0 ∧
    (((insert_address 1 5 0 0 0 [] 100 []).bind
        (insert_address 1 99 0 0 0 [] 90)).map
      (fun st => st.map (fun kv => (kv.2.balance, kv.2.blockNumber)))) =
        some [(5, 100)] := by
  decide

/-- C2 (code_bug): for the ERC-20 Transfer log c2log, whose data word encodes
the value 2^63 = 9223372036854775808, the decoded from and to addresses are
persisted as the low 20 bytes of topics[1] and topics[2], but the persisted
amount is -9223372036854775808 — the as_u128-as-i64 cast in
insert_erc20_transfer reinterprets the low 64 bits as a signed value, so the
amount does not equal the U256 value encoded in the data field. -/
theorem erc20_transfer_amount_truncated :
    beBytesToNat c2log.data = 9223372036854775808 ∧
    (((erc20_log_transfer c2log).toOption.bind id).map
      (fun row => (row.fromAddress, row.toAddress, row.amount))) =
        some ("0x000000000000000000000000000000000000000a",
          "0x000000000000000000000000000000000000000b",
          -9223372036854775808) ∧
    (-9223372036854775808 : Int) ≠ 9223372036854775808 := by
  decide

/-- C3 (code_bug): for any 404 response from the explorer,
get_verified_sc_data returns the empty ContractInfo sentinel
ContractInfo::new(), but that sentinel does not satisfy is_null(): new()
sets abi_json to the empty JSON array while is_null() requires a JSON null,
so is_null() evaluates to false. -/
theorem get_verified_sc_data_404_sentinel (parse : String → Option Json)
    (body : Option Json) :
    get_verified_sc_data parse { status := 404, body := body } = some ContractInfo.new ∧
    ContractInfo.is_null ContractInfo.new = false :=
  ⟨rfl, rfl⟩

/-- C4 (code_bug): on a creation receipt whose explorer lookup returned 404
(verified data ContractInfo::new()), insert_smart_contract takes the
non-null branch — the sentinel fails is_null() — and panics unwrapping
serde_json::from_str of the empty abi string, so no contract row is
inserted at all. -/
theorem insert_smart_contract_404_panics (parse : String → Option Json)
    (tr : TransactionReceipt) (code : List Nat)
    (h : parse "" = none) :
    insert_smart_contract parse tr code ContractInfo.new = none := by
  have hnull : ContractInfo.is_null ContractInfo.new = false := rfl
  cases hca : tr.contract_address with
  | none => simp [insert_smart_contract, hca]
  | some ca =>
    cases hbn : tr.block_number with
    | none => simp [insert_smart_contract, hca, hbn]
    | some bn =>
      have habi : ContractInfo.new.abi = "" := rfl
      simp [insert_smart_contract, hca, hbn, hnull, habi, h]

/-- Witness for C4: the receipt of scenario S6, with contract address 0xC...C
and the 404 sentinel, yields no contract row. -/
theorem insert_smart_contract_404_panics_witness :
    insert_smart_contract parseNone c4receipt [] ContractInfo.new = none :=
  insert_smart_contract_404_panics parseNone c4receipt [] rfl

/-- C5 counterexample: an ABI input that is an empty JSON array makes
detect_contract_type panic (the as_str expect) instead of returning
Unknown. -/
theorem detect_contract_type_empty_array_panics :
    detect_contract_type parseNone (Json.arr []) = none ∧
    ¬ detect_contract_type parseNone (Json.arr []) = some ContractType.Unknown := by
  decide

/-- C5 (corrected): a null ABI classifies as Unknown without error, but an
ABI value that is not a JSON string — such as an empty array — panics at the
as_str expect, and a string whose content fails to parse panics at the
from_str expect; neither returns Unknown. -/
theorem detect_contract_type_null_and_panic (parse : String → Option Json) (s : String)
    (h : parse s = none) :
    detect_contract_type parse Json.null = some ContractType.Unknown ∧
    detect_contract_type parse (Json.arr []) = none ∧
    detect_contract_type parse (Json.str s) = none := by
  refine ⟨rfl, rfl, ?_⟩
  unfold detect_contract_type
  simp [Json.isNull, Json.asStr, h]

/-- Witness for C5: instantiated at the refusing parser and a concrete
string. -/
theorem detect_contract_type_null_and_panic_witness :
    detect_contract_type parseNone Json.null = some ContractType.Unknown ∧
    detect_contract_type parseNone (Json.arr []) = none ∧
    detect_contract_type parseNone (Json.str "not json") = none :=
  detect_contract_type_null_and_panic parseNone "not json" rfl

/-- C6 (confirmed): an ABI string parsing to an array that contains function
entries named totalSupply, balanceOf and transfer classifies as ERC-20,
regardless of entry order and of additional entries. -/
theorem detect_contract_type_erc20 (parse : String → Option Json) (s : String)
    (entries : List Json)
    (hp : parse s = some (Json.arr entries))
    (h : ∀ name ∈ (["totalSupply", "balanceOf", "transfer"] : List String),
      ∃ e ∈ entries, (e.index "type").asStr = some "function" ∧
        (e.index "name").asStr = some name) :
    detect_contract_type parse (Json.str s) = some ContractType.ERC20 := by
  unfold detect_contract_type
  simp only [Json.isNull, Json.asStr]
  rw [hp]
  simp [all_names_found_sufficient entries _ h]

/-- Witness for C6: the S3 ABI with function names totalSupply, balanceOf,
transfer, approve classifies as ERC-20. -/
theorem detect_contract_type_erc20_witness :
    detect_contract_type parse20 (Json.str "abi20") = some ContractType.ERC20 :=
  detect_contract_type_erc20 parse20 "abi20" abi20entries rfl (by decide)

/-- C7 counterexample: a parsed ABI holding exactly the function entries
ownerOf, safeTransferFrom and transferFrom — not ERC-20, and exactly the
trio named by the claim — classifies as Unknown, not ERC-721. -/
theorem detect_contract_type_erc721_counterexample :
    detect_contract_type parse721 (Json.str "abi721") = some ContractType.Unknown ∧
    ¬ detect_contract_type parse721 (Json.str "abi721") = some ContractType.ERC721 := by
  decide

/-- C7 (corrected): the source tests the ERC-721 rule with the single name
Transfer on function entries; an ABI that fails the ERC-20 check and
contains a function entry named Transfer classifies as ERC-721. -/
theorem detect_contract_type_erc721 (parse : String → Option Json) (s : String)
    (entries : List Json)
    (hp : parse s = some (Json.arr entries))
    (h20 : all_names_found (Json.arr entries) ["totalSupply", "balanceOf", "transfer"] = false)
    (hT : ∃ e ∈ entries, (e.index "type").asStr = some "function" ∧
      (e.index "name").asStr = some "Transfer") :
    detect_contract_type parse (Json.str s) = some ContractType.ERC721 := by
  unfold detect_contract_type
  simp only [Json.isNull, Json.asStr]
  rw [hp]
  have hT2 : all_names_found (Json.arr entries) ["Transfer"] = true := by
    apply all_names_found_sufficient
    intro name hname
    simp at hname
    subst hname
    exact hT
  simp [h20, hT2]

/-- Witness for C7: the ownerOf, safeTransferFrom, transferFrom ABI extended
with a function entry named Transfer classifies as ERC-721. -/
theorem detect_contract_type_erc721_witness :
    detect_contract_type parse721t (Json.str "abi721t") = some ContractType.ERC721 :=
  detect_contract_type_erc721 parse721t "abi721t" abi721tEntries rfl (by decide) (by decide)

/-- C8 (confirmed): index_block returns an error exactly when the block was
fetched and inserting it failed; a missing block (or a failed fetch) returns
success, and the per-transaction outcomes never influence the returned
value. -/
theorem index_block_error_iff (env : BlockEnv) :
    (∃ e, (index_block env).1 = Except.error e) ↔
      ((∃ b, env.getBlock = Except.ok (some b)) ∧
        ∃ e, env.insertBlock = Except.error e) := by
  unfold index_block
  cases hg : env.getBlock with
  | error e => simp
  | ok ob =>
    cases ob with
    | none => simp
    | some b =>
      cases hi : env.insertBlock with
      | error e => simp
      | ok u => simp

/-- C9 counterexample: in a run over blocks 1000..1099 with MAX_CONCURRENCY
10 in which every batch completes in under five seconds, no progress line at
all is emitted, refuting the unconditional at-least-one-progress-line part
of the claim. -/
theorem index_blocks_fast_run_no_progress_line :
    ¬ 1 ≤ (index_blocks 1000 1099 10 (fun _ => 0)).progressLines := by
  decide

/-- C9 (corrected): a run over blocks 1000..1099 with MAX_CONCURRENCY 10
schedules exactly 100 block tasks, each block number of the range exactly
once; progress lines depend on elapsed wall time — with five seconds
elapsed at each batch boundary at least one line is emitted, while a run
whose batches all finish in under five seconds emits none. -/
theorem index_blocks_s5 (b : Nat) (h1 : 1000 ≤ b) (h2 : b ≤ 1099) :
    (index_blocks 1000 1099 10 (fun _ => 5)).scheduled.length = 100 ∧
    (index_blocks 1000 1099 10 (fun _ => 5)).scheduled.count b = 1 ∧
    1 ≤ (index_blocks 1000 1099 10 (fun _ => 5)).progressLines ∧
    (index_blocks 1000 1099 10 (fun _ => 0)).progressLines = 0 := by
  have hs : (index_blocks 1000 1099 10 (fun _ => 5)).scheduled = List.range' 1000 100 := by
    decide
  refine ⟨by rw [hs]; exact List.length_range' 1000 1 100, ?_, by decide, by decide⟩
  rw [hs]
  exact List.count_eq_one_of_mem (List.nodup_range' 1000 100)
    (List.mem_range'_1.mpr ⟨h1, by omega⟩)

/-- Witness for C9: instantiated at block 1000. -/
theorem index_blocks_s5_witness :
    (index_blocks 1000 1099 10 (fun _ => 5)).scheduled.length = 100 ∧
    (index_blocks 1000 1099 10 (fun _ => 5)).scheduled.count 1000 = 1 ∧
    1 ≤ (index_blocks 1000 1099 10 (fun _ => 5)).progressLines ∧
    (index_blocks 1000 1099 10 (fun _ => 0)).progressLines = 0 :=
  index_blocks_s5 1000 (by decide) (by decide)

/-- C10 (confirmed): when a transaction has no to field, insert_transaction
binds the zero-address string to the to column, and when a receipt has no
contract_address, insert_transaction_receipt binds the zero-address string
to the contractAddress column; both columns always receive a string, never
NULL, so absence coincides with the literal zero address in the store. -/
theorem insert_tx_missing_to_zero (t : Transaction) (row : TransactionRow)
    (tr : TransactionReceipt) (rrow : TransactionReceiptRow)
    (h1 : insert_transaction t = some row) (h2 : t.to_ = none)
    (h3 : insert_transaction_receipt tr = some rrow) (h4 : tr.contract_address = none) :
    row.to_ = "0x0000000000000000000000000000000000000000" ∧
    rrow.contractAddress = "0x0000000000000000000000000000000000000000" := by
  constructor
  · simp only [insert_transaction, bind, Option.bind_eq_some] at h1
    obtain ⟨g64, hg, tt, htt, n64, hn, v128, hv, ci, hci, ci64, hci64, gp, hgp,
      gp128, hgp128, bh, hbh, bn, hbn, mf, hmf, mp, hmp, hrow⟩ := h1
    rw [Option.some_inj] at hrow
    subst hrow
    rw [h2]
    rfl
  · simp only [insert_transaction_receipt, bind, Option.bind_eq_some] at h3
    obtain ⟨bh, hbh, bn, hbn, cgu, hcgu, gu, hgu, st32, hst, egp, hegp, tt, htt, hrow⟩ := h3
    rw [Option.some_inj] at hrow
    subst hrow
    rw [h4]
    rfl

/-- Witness for C10: a concrete transaction without to and a concrete receipt
without contract_address both store the zero-address string. -/
theorem insert_tx_missing_to_zero_witness :
    ((insert_transaction c10tx).getD emptyTxRow).to_ =
      "0x0000000000000000000000000000000000000000" ∧
    ((insert_transaction_receipt c10receipt).getD emptyReceiptRow).contractAddress =
      "0x0000000000000000000000000000000000000000" :=
  insert_tx_missing_to_zero c10tx ((insert_transaction c10tx).getD emptyTxRow)
    c10receipt ((insert_transaction_receipt c10receipt).getD emptyReceiptRow)
    rfl rfl rfl rfl

end EthIndexer
